import Mathlib

/-!
Shallow embedding of the zitadel/fastify-auth adapter (src/index.ts):
the session getter `getSession`, the base-path extraction `getBasePath`,
the plugin registrant `FastifyAuth` (its route registration, its
form-body parser step, and its per-request catch-all handler).
-/

/-- JSON values as produced by parsing a canonical response body with
`response.json()`. `null` also stands for an absent or empty body. -/
inductive Json where
  | null
  | bool (b : Bool)
  | num (n : Int)
  | str (s : String)
  | arr (elems : List Json)
  | obj (fields : List (String × Json))

/-- Truthiness of a parsed JSON value under JavaScript coercion rules,
as tested by `!data`: null is falsy, booleans are themselves, numbers
are falsy exactly at 0, strings are falsy exactly when empty, arrays and
objects are always truthy. -/
def Json.truthy : Json → Bool
  | .null => false
  | .bool b => b
  | .num n => n != 0
  | .str s => s != ""
  | .arr _ => true
  | .obj _ => true

/-- Number of keys JavaScript `Object.keys` reports for a parsed JSON
value: the fields of an object, the indices of an array or a string,
none for primitives. (On null `Object.keys` would throw, but the source
only evaluates it after `!data` has ruled null out.) -/
def Json.objKeysLength : Json → Nat
  | .null => 0
  | .bool _ => 0
  | .num _ => 0
  | .str s => s.length
  | .arr xs => xs.length
  | .obj fs => fs.length

/-- Field lookup on a parsed JSON value, mirroring JavaScript property
access such as `data.message`: `none` (JavaScript `undefined`) when the
value is not an object or lacks the field. -/
def Json.field (d : Json) (k : String) : Option Json :=
  match d with
  | .obj fs => (fs.find? (fun p => p.1 == k)).map Prod.snd
  | _ => none

/-- Canonical response returned by the external auth engine, as consumed
by the tail of `getSession`: an optional numeric status (the source
destructures it with a default of 200) and the parsed JSON body. -/
structure CanonResponse where
  status : Option Nat
  body : Json

/-- Outcome of the session getter: the parsed session object, the null
result, or a thrown error carrying the body's `message` field. -/
inductive SessionResult where
  | ok (session : Json)
  | noSession
  | thrown (message : Option Json)

/-- Emptiness test from `getSession` (src/index.ts), the condition
`!data or !Object.keys(data).length` (with short-circuit or). -/
def emptyBody (data : Json) : Bool :=
  !data.truthy || data.objKeysLength == 0

/-- Tail of `getSession` (src/index.ts) after the engine call: read the
status with a default of 200, parse the body, return null on an empty
body, return the body itself when the status is 200, and otherwise
throw an error carrying `data.message`. -/
def getSession (response : CanonResponse) : SessionResult :=
  let status := response.status.getD 200
  let data := response.body
  if emptyBody data then .noSession
  else if status = 200 then .ok data
  else .thrown (data.field "message")

/-- C2: for every canonical response whose effective status is not 200
and whose JSON body is non-empty, the session getter throws an error
whose message is the body's `message` field. -/
theorem c2_nonsuccess_throws (r : CanonResponse)
    (hs : r.status.getD 200 ≠ 200) (hb : emptyBody r.body = false) :
    getSession r = .thrown (r.body.field "message") := by
  simp [getSession, hb, hs]

/-- C2 witness: at status 401 and body containing message "invalid", the
session getter throws with message "invalid". -/
theorem c2_witness :
    getSession ⟨some 401, .obj [("message", .str "invalid")]⟩
      = .thrown (some (.str "invalid")) :=
  c2_nonsuccess_throws ⟨some 401, .obj [("message", .str "invalid")]⟩
    (by decide) rfl

/-- C3: for every canonical response whose body parses to null or to an
object with zero keys, the session getter returns null regardless of the
status. -/
theorem c3_empty_body_null (r : CanonResponse)
    (h : r.body = .null ∨ r.body = .obj []) :
    getSession r = .noSession := by
  rcases h with h | h <;>
    simp [getSession, emptyBody, h, Json.truthy, Json.objKeysLength]

/-- C3 witness: a response with status 401 and a null body, and one with
status 500 and an empty-object body, both yield null. -/
theorem c3_witness :
    getSession ⟨some 401, .null⟩ = .noSession ∧
    getSession ⟨some 500, .obj []⟩ = .noSession :=
  ⟨c3_empty_body_null ⟨some 401, .null⟩ (Or.inl rfl),
   c3_empty_body_null ⟨some 500, .obj []⟩ (Or.inr rfl)⟩

/-- C4: for every canonical response with status 200 and a non-empty
JSON body, the session getter returns the parsed body as the session. -/
theorem c4_success_returns_body (r : CanonResponse)
    (hs : r.status = some 200) (hb : emptyBody r.body = false) :
    getSession r = .ok r.body := by
  simp [getSession, hs, hb]

/-- C4 witness: at status 200 and body containing a user object, the
session getter returns that body. -/
theorem c4_witness :
    getSession ⟨some 200, .obj [("user", .obj [("id", .str "1")])]⟩
      = .ok (.obj [("user", .obj [("id", .str "1")])]) :=
  c4_success_returns_body ⟨some 200, .obj [("user", .obj [("id", .str "1")])]⟩
    rfl rfl

/-- C10: when the canonical response carries no status at all, the
session getter defaults the status to 200 and, for a non-empty JSON
body, returns the parsed body rather than throwing. -/
theorem c10_absent_status_success (r : CanonResponse)
    (hs : r.status = none) (hb : emptyBody r.body = false) :
    getSession r = .ok r.body := by
  simp [getSession, hs, hb]

/-- C10 witness: an absent status with a user-object body yields the
body as the session. -/
theorem c10_witness :
    getSession ⟨none, .obj [("user", .obj [("id", .str "1")])]⟩
      = .ok (.obj [("user", .obj [("id", .str "1")])]) :=
  c10_absent_status_success ⟨none, .obj [("user", .obj [("id", .str "1")])]⟩
    rfl rfl

/-- Characters of a route URL pattern before the first occurrence of the
two-character wildcard marker "/*", mirroring the JavaScript expression
`url.split(sep)[0]` with that separator. -/
def beforeWildcard : List Char → List Char
  | [] => []
  | c :: rest =>
    if c == '/' && rest.head? == some '*' then []
    else c :: beforeWildcard rest

/-- Base-path extraction from the route's configured URL pattern, the
function `getBasePath` of src/index.ts: everything before the first
occurrence of "/*". -/
def getBasePath (url : String) : String :=
  String.mk (beforeWildcard url.data)

/-- Test whether a character list contains the wildcard marker "/*". -/
def containsWildcard : List Char → Bool
  | [] => false
  | c :: rest => (c == '/' && rest.head? == some '*') || containsWildcard rest

theorem beforeWildcard_append (p : List Char)
    (h : containsWildcard p = false) :
    beforeWildcard (p ++ ['/', '*']) = p := by
  induction p with
  | nil => rfl
  | cons c rest ih =>
    rw [containsWildcard, Bool.or_eq_false_iff] at h
    obtain ⟨h1, h2⟩ := h
    have hcond : (c == '/' && ((rest ++ ['/', '*']).head? == some '*')) = false := by
      cases rest with
      | nil => simp
      | cons d t => simpa using h1
    rw [List.cons_append, beforeWildcard, if_neg (by rw [hcond]; simp), ih h2]

/-- C5: a route URL pattern that is a literal mount path followed by the
wildcard suffix "/*", the mount path itself containing no "/*", yields
exactly that mount path as base path, and distinct mount paths yield
distinct base paths. -/
theorem c5_basePath_exact (p : String) (h : containsWildcard p.data = false) :
    getBasePath (p ++ "/*") = p ∧
    (∀ q : String, containsWildcard q.data = false → p ≠ q →
      getBasePath (p ++ "/*") ≠ getBasePath (q ++ "/*")) := by
  have key : ∀ s : String, containsWildcard s.data = false →
      getBasePath (s ++ "/*") = s := by
    intro s hs
    show String.mk (beforeWildcard (s ++ "/*").data) = s
    have : (s ++ "/*").data = s.data ++ ['/', '*'] := by
      cases s with
      | mk l => rfl
    rw [this, beforeWildcard_append s.data hs]
  refine ⟨key p h, fun q hq hne => ?_⟩
  rw [key p h, key q hq]
  exact hne

/-- C5 witness: the pattern obtained from the mount path "/auth" yields
base path "/auth", and the mount path "/admin/auth" yields a different
base path. -/
theorem c5_witness :
    getBasePath ("/auth" ++ "/*") = "/auth" ∧
    getBasePath ("/admin/auth" ++ "/*") ≠ getBasePath ("/auth" ++ "/*") :=
  ⟨(c5_basePath_exact "/auth" (by decide)).1,
   (c5_basePath_exact "/admin/auth" (by decide)).2 "/auth" (by decide)
     (by decide)⟩

/-- Host framework state visible to the plugin registrant: the content
types that currently have a registered content-type parser. -/
structure FastifyState where
  contentTypeParsers : List String

/-- Content-type probe `fastify.hasContentTypeParser`. -/
def hasContentTypeParser (st : FastifyState) (ct : String) : Bool :=
  st.contentTypeParsers.contains ct

/-- Content type handled by the formbody plugin. -/
def formUrlencoded : String := "application/x-www-form-urlencoded"

/-- Registration of the formbody plugin on the host instance: adds a
parser for the form content type, failing with the host framework's
duplicate-parser error when one is already present (the error the
registrant's guard exists to avoid). -/
def registerFormbody (st : FastifyState) : Except String FastifyState :=
  if st.contentTypeParsers.contains formUrlencoded then
    .error "FST_ERR_CTP_ALREADY_PRESENT"
  else
    .ok { contentTypeParsers := formUrlencoded :: st.contentTypeParsers }

/-- Form-body step of the plugin registrant (src/index.ts): register the
formbody plugin only when the host has no parser for the form content
type, and otherwise do nothing. -/
def formbodyStep (st : FastifyState) : Except String FastifyState :=
  if !hasContentTypeParser st formUrlencoded then
    registerFormbody st
  else
    .ok st

/-- C6: the form-body parser is registered exactly when the host has no
parser for the form content type; when one is already present the step
is a no-op that raises no duplicate-registration error, and when none is
present the step succeeds and leaves a parser registered. -/
theorem c6_formbody_conditional (st : FastifyState) :
    (hasContentTypeParser st formUrlencoded = true →
      formbodyStep st = .ok st) ∧
    (hasContentTypeParser st formUrlencoded = false →
      formbodyStep st = .ok ⟨formUrlencoded :: st.contentTypeParsers⟩ ∧
      hasContentTypeParser ⟨formUrlencoded :: st.contentTypeParsers⟩
        formUrlencoded = true) := by
  constructor
  · intro h
    simp [formbodyStep, h]
  · intro h
    refine ⟨?_, by simp [hasContentTypeParser]⟩
    simp [formbodyStep, hasContentTypeParser] at *
    simp [registerFormbody, h]

/-- C6 witness: with a form parser already present the step is a no-op
returning the unchanged state; with none present it registers one. -/
theorem c6_witness :
    formbodyStep ⟨[formUrlencoded]⟩ = .ok ⟨[formUrlencoded]⟩ ∧
    formbodyStep ⟨[]⟩ = .ok ⟨[formUrlencoded]⟩ :=
  ⟨(c6_formbody_conditional ⟨[formUrlencoded]⟩).1 (by decide),
   ((c6_formbody_conditional ⟨[]⟩).2 (by decide)).1⟩

/-- Route definition as passed to `fastify.route` by the registrant: a
list of accepted methods and a URL pattern. -/
structure RouteDef where
  method : List String
  url : String
  deriving DecidableEq

/-- Routes the plugin registrant registers (src/index.ts): a single
route for the methods GET and POST against the wildcard sub-path. -/
def fastifyAuthRoutes : List RouteDef :=
  [{ method := ["GET", "POST"], url := "/*" }]

/-- Route matching on the method axis: a route accepts a request method
exactly when the method appears in its configured method list. -/
def routeAccepts (r : RouteDef) (m : String) : Bool :=
  r.method.contains m

/-- Standard HTTP request methods. -/
def httpMethods : List String :=
  ["GET", "HEAD", "POST", "PUT", "DELETE", "CONNECT", "OPTIONS", "TRACE",
   "PATCH"]

/-- C1 counterexample: PUT is a standard HTTP method, yet the registered
route rejects it, refuting the claim that the single registered route
matches every HTTP method. -/
theorem c1_counterexample :
    "PUT" ∈ httpMethods ∧
    ∀ r ∈ fastifyAuthRoutes, routeAccepts r "PUT" = false := by
  decide

/-- C1 (amended): the registrant registers exactly one route, its URL
pattern is the wildcard sub-path, and it accepts a method exactly when
that method is GET or POST. -/
theorem c1_single_route_get_post :
    fastifyAuthRoutes.length = 1 ∧
    (∀ r ∈ fastifyAuthRoutes, r.url = "/*") ∧
    (∀ r ∈ fastifyAuthRoutes, ∀ m : String,
      routeAccepts r m = true ↔ (m = "GET" ∨ m = "POST")) := by
  refine ⟨rfl, by decide, ?_⟩
  intro r hr m
  have hr' : r = { method := ["GET", "POST"], url := "/*" } := by
    simpa [fastifyAuthRoutes] using hr
  subst hr'
  simp [routeAccepts, List.contains, List.elem_eq_mem]

/-- C1 witness: the registered route accepts POST and rejects PUT. -/
theorem c1_witness :
    routeAccepts { method := ["GET", "POST"], url := "/*" } "POST" = true ∧
    routeAccepts { method := ["GET", "POST"], url := "/*" } "PUT" ≠ true :=
  ⟨(c1_single_route_get_post.2.2 _ (by decide) "POST").mpr (Or.inr rfl),
   fun h => by
     rcases (c1_single_route_get_post.2.2 _ (by decide) "PUT").mp h with h' | h' <;>
       exact absurd h' (by decide)⟩

/-- Inbound framework request headers, as a name-value association
list. -/
structure InboundRequest where
  headers : List (String × String)

/-- Header access on an inbound request, mirroring property access such
as `req.headers.cookie`. -/
def InboundRequest.header (req : InboundRequest) (name : String) :
    Option String :=
  (req.headers.find? (fun p => p.1 == name)).map Prod.snd

/-- Header lookup in a header list of a built request. -/
def headerLookup (hs : List (String × String)) (name : String) :
    Option String :=
  (hs.find? (fun p => p.1 == name)).map Prod.snd

/-- Headers of the synthetic session sub-request built by `getSession`
(src/index.ts): the single cookie entry of the literal
`headers: \x7b cookie: req.headers.cookie ?? '' \x7d`, defaulting to the
empty string when the inbound request carries no cookie. -/
def sessionRequestHeaders (req : InboundRequest) : List (String × String) :=
  [("cookie", (req.header "cookie").getD "")]

/-- C7: the synthetic session sub-request carries exactly one header,
the cookie header copied from the inbound request, and no other header
name resolves on it, so every other inbound header is dropped. -/
theorem c7_only_cookie_header (req : InboundRequest) (c : String)
    (hc : req.header "cookie" = some c) :
    (sessionRequestHeaders req).length = 1 ∧
    headerLookup (sessionRequestHeaders req) "cookie" = some c ∧
    (∀ name : String, name ≠ "cookie" →
      headerLookup (sessionRequestHeaders req) name = none) := by
  refine ⟨rfl, by simp [sessionRequestHeaders, headerLookup, hc], ?_⟩
  intro name hne
  have hbeq : ("cookie" == name) = false := by simpa using Ne.symm hne
  simp [sessionRequestHeaders, headerLookup, List.find?, hbeq]

/-- C7 witness: from an inbound request with a cookie header and an
authorization header, the sub-request keeps exactly the cookie and drops
the other header. -/
theorem c7_witness :
    (sessionRequestHeaders ⟨[("cookie", "sid=1"), ("x-token", "t")]⟩).length
      = 1 ∧
    headerLookup
      (sessionRequestHeaders ⟨[("cookie", "sid=1"), ("x-token", "t")]⟩)
      "cookie" = some "sid=1" ∧
    headerLookup
      (sessionRequestHeaders ⟨[("cookie", "sid=1"), ("x-token", "t")]⟩)
      "x-token" = none := by
  have h := c7_only_cookie_header ⟨[("cookie", "sid=1"), ("x-token", "t")]⟩
    "sid=1" rfl
  exact ⟨h.1, h.2.1, h.2.2 "x-token" (by decide)⟩

/-- Auth configuration object shared with the host application: the
base path this layer overwrites per request, and all remaining fields
(providers, secret, callbacks, ...), opaque to this layer and gathered
into one component. -/
structure AuthConfig (α : Type) where
  basePath : Option String
  rest : α

/-- Catch-all route handler of the plugin registrant (src/index.ts):
overwrite the shared config's base path with the value computed from the
route's URL pattern, invoke the external engine on the translated
request and the shared config, and translate the engine's response onto
the reply. Engine errors are not caught. The result pairs the config as
the handler left it with the handler's outcome. -/
def routeHandler {α Req CReq CResp Rep E : Type}
    (toWebRequest : Req → CReq)
    (auth : CReq → AuthConfig α → Except E CResp)
    (toFastifyReply : CResp → Rep → Rep)
    (config : AuthConfig α) (routeUrl : String) (request : Req)
    (reply : Rep) :
    AuthConfig α × Except E Rep :=
  let config' := { config with basePath := some (getBasePath routeUrl) }
  match auth (toWebRequest request) config' with
  | .error e => (config', .error e)
  | .ok response => (config', .ok (toFastifyReply response reply))

/-- C8: per request the handler overwrites only the base-path field of
the shared config -- the rest of the config is unchanged -- and the
config it hands to the external engine is exactly that updated config,
its other fields verbatim those of the input config. -/
theorem c8_config_frame {α Req CReq CResp Rep E : Type}
    (toWebRequest : Req → CReq)
    (auth : CReq → AuthConfig α → Except E CResp)
    (toFastifyReply : CResp → Rep → Rep)
    (config : AuthConfig α) (routeUrl : String) (request : Req)
    (reply : Rep) :
    (routeHandler toWebRequest auth toFastifyReply config routeUrl request
        reply).1
      = { basePath := some (getBasePath routeUrl), rest := config.rest } ∧
    (routeHandler toWebRequest auth toFastifyReply config routeUrl request
        reply).2
      = Except.map (fun response => toFastifyReply response reply)
          (auth (toWebRequest request)
            { basePath := some (getBasePath routeUrl),
              rest := config.rest }) := by
  unfold routeHandler
  dsimp only
  refine ⟨?_, ?_⟩ <;> (split <;> simp_all [Except.map])

/-- C9: an error thrown by the external engine propagates unchanged out
of the route handler: no catch, translation, status override, retry, or
fallback. -/
theorem c9_error_propagates {α Req CReq CResp Rep E : Type}
    (toWebRequest : Req → CReq)
    (auth : CReq → AuthConfig α → Except E CResp)
    (toFastifyReply : CResp → Rep → Rep)
    (config : AuthConfig α) (routeUrl : String) (request : Req)
    (reply : Rep) (e : E)
    (h : auth (toWebRequest request)
        { config with basePath := some (getBasePath routeUrl) }
      = .error e) :
    (routeHandler toWebRequest auth toFastifyReply config routeUrl request
        reply).2 = .error e := by
  simp [routeHandler, h]

/-- C9 witness: with an engine that throws the error "boom", the handler
outcome is exactly that error. -/
theorem c9_witness :
    (routeHandler (fun _ : Unit => ())
        (fun _ _ => (Except.error "boom" : Except String Unit))
        (fun _ (r : Unit) => r)
        ({ basePath := none, rest := 0 } : AuthConfig Nat)
        "/auth/*" () ()).2
      = Except.error "boom" :=
  c9_error_propagates (fun _ : Unit => ())
    (fun _ _ => (Except.error "boom" : Except String Unit))
    (fun _ (r : Unit) => r)
    { basePath := none, rest := 0 } "/auth/*" () () "boom" rfl
